import Mathlib

/-!
Shallow embedding of the cchd event dispatch pipeline (src/src):
the response interpreter (src/protocol/json.c), input validation
(src/protocol/validation.c), the CloudEvents envelope transformer
(src/protocol/cloudevents.c), the transport dispatcher retry/failover loop
(src/network/http.c), the backoff calculator (src/network/retry.c), and the
surrounding control flow of main.c.

JSON documents are modelled as an inductive value type with objects as
ordered key/value lists; `objGet` mirrors yyjson_obj_get (first matching
key).  Machine integers are modelled as `Int`/`Nat` (no value in these
code paths approaches 2^31).  Side effects that are stderr diagnostics only
(reason strings, progress messages) are not modelled, per the code they
never change a decision.  Out-of-memory failure paths are not modelled.
-/

namespace Cchd

/-- JSON values; objects are ordered key/value lists, as in yyjson documents. -/
inductive Json where
  | null : Json
  | bool (b : Bool) : Json
  | num (n : Int) : Json
  | str (s : String) : Json
  | arr (elems : List Json) : Json
  | obj (fields : List (String × Json)) : Json
deriving Repr

/-- yyjson_obj_get: the value of the first field with the given key. -/
def objGet : List (String × Json) → String → Option Json
  | [], _ => none
  | (k, v) :: rest, key => if k = key then some v else objGet rest key

/-- Field lookup on a JSON value (none when the value is not an object). -/
def Json.getField : Json → String → Option Json
  | .obj fields, key => objGet fields key
  | _, _ => none

/- Error codes from src/core/error.h (cchd_error). -/
def CCHD_SUCCESS : Int := 0
def CCHD_ERROR_BLOCKED : Int := 1
def CCHD_ERROR_ASK_USER : Int := 2
def CCHD_ERROR_INVALID_ARG : Int := 3
def CCHD_ERROR_INVALID_URL : Int := 4
def CCHD_ERROR_INVALID_JSON : Int := 5
def CCHD_ERROR_INVALID_HOOK : Int := 6
def CCHD_ERROR_NETWORK : Int := 10
def CCHD_ERROR_CONNECTION : Int := 11
def CCHD_ERROR_TIMEOUT : Int := 12
def CCHD_ERROR_TLS : Int := 13
def CCHD_ERROR_DNS : Int := 14
def CCHD_ERROR_HTTP_CLIENT : Int := 15
def CCHD_ERROR_HTTP_SERVER : Int := 16
def CCHD_ERROR_SERVER_INVALID : Int := 30
def CCHD_ERROR_ALL_SERVERS_FAILED : Int := 32

/-- Result of cchd_process_server_response: the exit code, the suppress flag
and the modified payload as observed by the caller (main.c initializes the
out-parameters to 0 / false / NULL), plus the returned cchd_error. -/
structure ServerDecision where
  exitCode : Int
  suppressOutput : Bool
  modifiedOutput : Option Json
  err : Int
deriving Repr

/-- parse_base_response (src/protocol/json.c): `continue` defaults to true
unless the field is the JSON boolean false; `suppressOutput` defaults to
false unless the field is a JSON boolean.  (`stopReason` is only printed to
stderr and is not modelled.) -/
def parse_base_response (fields : List (String × Json)) : Bool × Bool :=
  let shouldContinue := match objGet fields "continue" with
    | some (.bool b) => b
    | _ => true
  let suppress := match objGet fields "suppressOutput" with
    | some (.bool b) => b
    | _ => false
  (shouldContinue, suppress)

/-- parse_decision (src/protocol/json.c): the `decision` field when it is a
string, otherwise none.  No other key (in particular not `action`) is read. -/
def parse_decision (fields : List (String × Json)) : Option String :=
  match objGet fields "decision" with
  | some (.str s) => some s
  | _ => none

/-- handle_decision (src/protocol/json.c): an empty decision string trips the
invalid-parameter guard and forces exit 1; "block" gives 1;
"approve"/"allow" give 0; anything else leaves the exit code unchanged. -/
def handle_decision (decision : String) (exitCode : Int) : Int :=
  if decision = "" then 1
  else if decision = "block" then 1
  else if decision = "approve" ∨ decision = "allow" then 0
  else exitCode

/-- handle_modify (src/protocol/json.c): the `modified_data` value, if
present, re-serialized for the caller (modelled as the JSON value itself). -/
def handle_modify (fields : List (String × Json)) : Option Json :=
  objGet fields "modified_data"

/-- handle_hook_specific (src/protocol/json.c): honoured only when
`hookSpecificOutput` is an object whose `hookEventName` is the string
"PreToolUse"; then `permissionDecision` "deny" ⇒ 1, "allow" ⇒ 0, "ask" ⇒ 2,
anything else leaves the exit code unchanged. -/
def handle_hook_specific (fields : List (String × Json)) (exitCode : Int) : Int :=
  match objGet fields "hookSpecificOutput" with
  | some (.obj hook) =>
    match objGet hook "hookEventName" with
    | some (.str name) =>
      if name = "PreToolUse" then
        match objGet hook "permissionDecision" with
        | some (.str perm) =>
          if perm = "deny" then 1
          else if perm = "allow" then 0
          else if perm = "ask" then 2
          else exitCode
        | _ => exitCode
      else exitCode
    | _ => exitCode
  | _ => exitCode

/-- cchd_process_server_response (src/protocol/json.c).  `responseData` is
the parse result of the body: `none` stands for a body that fails to parse
as JSON.  4xx short-circuits to exit 1; 5xx (and an unparseable or
non-object body) short-circuits to the fail-open/fail-closed exit; an
explicit `continue:false` commits to exit 1 before any other field is
interpreted; otherwise `decision` is handled and then the hook-specific
output may override the exit code. -/
def cchd_process_server_response (responseData : Option Json) (failOpen : Bool)
    (serverHttpStatus : Int) : ServerDecision :=
  if 400 ≤ serverHttpStatus ∧ serverHttpStatus < 500 then
    { exitCode := 1, suppressOutput := false, modifiedOutput := none,
      err := CCHD_ERROR_HTTP_CLIENT }
  else if 500 ≤ serverHttpStatus then
    { exitCode := if failOpen then 0 else 1, suppressOutput := false,
      modifiedOutput := none, err := CCHD_ERROR_HTTP_SERVER }
  else
    match responseData with
    | none =>
      { exitCode := if failOpen then 0 else 1, suppressOutput := false,
        modifiedOutput := none, err := CCHD_ERROR_INVALID_JSON }
    | some (.obj fields) =>
      let base := parse_base_response fields
      if ¬base.1 then
        { exitCode := 1, suppressOutput := false, modifiedOutput := none,
          err := CCHD_SUCCESS }
      else
        let exitAfterDecision : Int :=
          match parse_decision fields with
          | some d => if d = "modify" then 0 else handle_decision d 0
          | none => 0
        let modified : Option Json :=
          match parse_decision fields with
          | some d => if d = "modify" then handle_modify fields else none
          | none => none
        { exitCode := handle_hook_specific fields exitAfterDecision,
          suppressOutput := base.2, modifiedOutput := modified,
          err := CCHD_SUCCESS }
    | some _ =>
      { exitCode := if failOpen then 0 else 1, suppressOutput := false,
        modifiedOutput := none, err := CCHD_ERROR_SERVER_INVALID }

/-- Removal of every field with the given key from a JSON object. -/
def eraseKey (key : String) : List (String × Json) → List (String × Json)
  | [] => []
  | (k, v) :: rest =>
    if k = key then eraseKey key rest else (k, v) :: eraseKey key rest

/-- cchd_validate_hook_event_fields (src/protocol/validation.c): the input
must be a JSON object whose `hook_event_name` and `session_id` fields are
both present and both strings.  Unknown hook names and a missing `tool_name`
only print warnings; there is no emptiness check on either string. -/
def cchd_validate_hook_event_fields (root : Json) : Bool :=
  match root with
  | .obj fields =>
    match objGet fields "hook_event_name", objGet fields "session_id" with
    | some hookName, some sessionId =>
      (match hookName with | .str _ => true | _ => false) &&
      (match sessionId with | .str _ => true | _ => false)
    | _, _ => false
  | _ => false

def TYPE_BUFFER_SIZE : Nat := 256

/-- The CloudEvents `type` attribute: "com.claudecode.hook." followed by the
event name, with "Unknown" when `hook_event_name` is not a string
(add_required_cloudevents_attributes, src/protocol/cloudevents.c). -/
def cloudevents_type_string (fields : List (String × Json)) : String :=
  "com.claudecode.hook." ++
    (match objGet fields "hook_event_name" with
     | some (.str s) => s
     | _ => "Unknown")

/-- An optional string-copied attribute: present only when the source value
is a string (sessionid / correlationid extensions). -/
def optStrField (key : String) (v : Option Json) : List (String × Json) :=
  match v with
  | some (.str s) => [(key, Json.str s)]
  | _ => []

/-- The optional `time` attribute: present only when RFC 3339 timestamp
generation succeeded (its failure must not abort the transform). -/
def optTimeField (t : Option String) : List (String × Json) :=
  match t with
  | some s => [("time", Json.str s)]
  | none => []

/-- cchd_transform_to_cloudevents (src/protocol/cloudevents.c).  `time` is
the timestamp when cchd_generate_rfc3339_timestamp succeeded, `ident` the
clock-derived unique id string — the transformer's two nondeterministic
inputs.  Returns none (NULL) when the input root is not an object or when
the formatted type string would overflow its 256-byte buffer; otherwise the
envelope ends with `data`, a deep copy of the entire input document
(build_data_object copies the root verbatim). -/
def cchd_transform_to_cloudevents (input : Json) (time : Option String)
    (ident : String) : Option Json :=
  match input with
  | .obj fields =>
    if TYPE_BUFFER_SIZE ≤ (cloudevents_type_string fields).utf8ByteSize then
      none
    else
      some (.obj (
        [("specversion", Json.str "1.0"),
         ("type", Json.str (cloudevents_type_string fields)),
         ("source", Json.str "/claude-code/hooks"),
         ("id", Json.str ident)] ++
        optTimeField time ++
        [("datacontenttype", Json.str "application/json")] ++
        optStrField "sessionid" (objGet fields "session_id") ++
        optStrField "correlationid" (objGet fields "correlation_id") ++
        [("data", input)]))
  | _ => none

/-- One candidate endpoint of the dispatch loop: whether its configured URL
is non-empty (the loop skips empty URLs), and the outcome of each attempt
against it — the HTTP status, or a negative cchd error code when the network
layer failed, together with the bytes delivered to the response buffer,
modelled by their JSON parse result (none = bytes that do not parse). -/
structure Endpoint where
  urlNonempty : Bool
  behavior : Nat → Int × Option Json

/-- The retry-strategy switch of cchd_send_request_to_server
(src/network/http.c): given one attempt's status and the current
max_attempts, whether to retry and the updated max_attempts.  Connection,
timeout, generic network and DNS failures — and unrecognized negative codes,
via the default arm — retry with the network budget of 3; malformed-URL and
TLS failures never retry; HTTP 5xx and 429 retry with the server-error
budget of 2; other 4xx never retry; every remaining status (2xx other than
200, 3xx, 1xx, ...) leaves should_retry at its initial false. -/
def classifyOutcome (httpStatus : Int) (maxAttempts : Nat) : Bool × Nat :=
  if httpStatus < 0 then
    let errorCode := -httpStatus
    if errorCode = CCHD_ERROR_CONNECTION ∨ errorCode = CCHD_ERROR_TIMEOUT ∨
        errorCode = CCHD_ERROR_NETWORK ∨ errorCode = CCHD_ERROR_DNS then
      (true, 3)
    else if errorCode = CCHD_ERROR_INVALID_URL ∨ errorCode = CCHD_ERROR_TLS then
      (false, maxAttempts)
    else (true, 3)
  else if 500 ≤ httpStatus ∧ httpStatus < 600 then (true, 2)
  else if httpStatus = 429 then (true, 2)
  else if 400 ≤ httpStatus ∧ httpStatus < 500 then (false, 1)
  else (false, maxAttempts)

/-- The per-endpoint retry loop of cchd_send_request_to_server: from index
`attempt` with the current `maxAttempts`, keep attempting while the
classification allows; terminate on HTTP 200 (returning the body), on a
non-retryable classification, or on attempt exhaustion.  The second
component is the index one past the last attempt performed — the number of
attempts when started at 0. -/
def tryServerFrom (behavior : Nat → Int × Option Json)
    (attempt maxAttempts : Nat) : Option (Option Json) × Nat :=
  if h : attempt < maxAttempts then
    let outcome := behavior attempt
    if outcome.1 = 200 then (some outcome.2, attempt + 1)
    else
      let cls := classifyOutcome outcome.1 maxAttempts
      if cls.1 then tryServerFrom behavior (attempt + 1) cls.2
      else (none, attempt + 1)
  else (none, attempt)
termination_by max maxAttempts 3 - attempt
decreasing_by
  have hle : (classifyOutcome (behavior attempt).1 maxAttempts).2 ≤
      max maxAttempts 3 := by
    simp only [classifyOutcome]
    split_ifs <;> simp
  omega

/-- The failover loop across the endpoint list (outer loop of
cchd_send_request_to_server): endpoints tried strictly in order, empty-URL
endpoints skipped, each entered with the initial network budget of 3; the
first HTTP 200 terminates the whole loop with (200, body); when every
endpoint is exhausted the loop falls through to
-CCHD_ERROR_ALL_SERVERS_FAILED.  The third component records the attempt
count of every endpoint reached, in list order. -/
def sendLoop : List Endpoint → Int × Option Json × List Nat
  | [] => (-CCHD_ERROR_ALL_SERVERS_FAILED, none, [])
  | e :: rest =>
    if e.urlNonempty then
      match tryServerFrom e.behavior 0 3 with
      | (some body, n) => (200, body, [n])
      | (none, n) =>
        let r := sendLoop rest
        (r.1, r.2.1, n :: r.2.2)
    else
      let r := sendLoop rest
      (r.1, r.2.1, 0 :: r.2.2)

/-- cchd_send_request_to_server (src/network/http.c): returns -1 with no
attempt when the endpoint list is empty (invalid-argument guard), otherwise
runs the failover loop. -/
def cchd_send_request_to_server (endpoints : List Endpoint) :
    Int × Option Json × List Nat :=
  if endpoints.isEmpty then (-1, none, []) else sendLoop endpoints

/-- The observable outcome of process_request_and_response together with the
dispatch trace (attempt count of each endpoint reached). -/
structure RequestOutcome where
  exitCode : Int
  suppressOutput : Bool
  modifiedOutput : Option Json
  networkAttempts : List Nat
deriving Repr

/-- process_request_and_response (src/main.c): dispatch, then interpret an
HTTP 200 response via cchd_process_server_response; for every other dispatch
outcome, fail-open leaves the exit code 0 while fail-closed maps a negative
dispatch status to the positive cchd error code (and a non-200 HTTP status
to CCHD_ERROR_BLOCKED) and suppresses output. -/
def process_request_and_response (failOpen : Bool)
    (endpoints : List Endpoint) : RequestOutcome :=
  let r := cchd_send_request_to_server endpoints
  if r.1 = 200 then
    let d := cchd_process_server_response r.2.1 failOpen r.1
    { exitCode := d.exitCode, suppressOutput := d.suppressOutput,
      modifiedOutput := d.modifiedOutput, networkAttempts := r.2.2 }
  else if ¬failOpen then
    { exitCode := if r.1 < 0 then -r.1 else CCHD_ERROR_BLOCKED,
      suppressOutput := true, modifiedOutput := none,
      networkAttempts := r.2.2 }
  else
    { exitCode := 0, suppressOutput := false, modifiedOutput := none,
      networkAttempts := r.2.2 }

/-- transform_input_json (src/main.c) with cchd_process_input_to_protocol
(src/protocol/json.c): `input` is the stdin document's parse result (none =
not valid JSON).  A parse failure exits with CCHD_ERROR_INVALID_JSON; valid
JSON whose validation or transformation fails exits with
CCHD_ERROR_INVALID_HOOK; otherwise the envelope goes forward. -/
def transform_input_json (input : Option Json) (time : Option String)
    (ident : String) : Except Int Json :=
  match input with
  | none => .error CCHD_ERROR_INVALID_JSON
  | some root =>
    if cchd_validate_hook_event_fields root then
      match cchd_transform_to_cloudevents root time ident with
      | some envelope => .ok envelope
      | none => .error CCHD_ERROR_INVALID_HOOK
    else .error CCHD_ERROR_INVALID_HOOK

/-- Final observable outcome of one pipeline run. -/
structure PipelineResult where
  exitCode : Int
  suppressOutput : Bool
  modifiedOutput : Option Json
  networkAttempts : List Nat
deriving Repr

/-- The main() control flow (src/main.c): parse and transform the input,
then dispatch and interpret.  A transform failure exits with its error code
before any network activity (networkAttempts = []). -/
def runPipeline (input : Option Json) (time : Option String) (ident : String)
    (failOpen : Bool) (endpoints : List Endpoint) : PipelineResult :=
  match transform_input_json input time ident with
  | .error e =>
    { exitCode := e, suppressOutput := false, modifiedOutput := none,
      networkAttempts := [] }
  | .ok _ =>
    let r := process_request_and_response failOpen endpoints
    { exitCode := r.exitCode, suppressOutput := r.suppressOutput,
      modifiedOutput := r.modifiedOutput,
      networkAttempts := r.networkAttempts }

/-- cchd_calculate_retry_delay (src/network/retry.c).  `jitter` models the
non-negative value rand() returned for this call; the code's `rand() % k`
appears as `jitter % k`.  Connection/DNS: seed 250-499ms, times 2^attempt
for attempt > 0, capped at 3000.  Timeout: seed 1000-1499ms, times 2 (once)
for attempt > 0, capped at 5000.  Other negative codes: seed 500-999ms,
times 2 for attempt > 0, capped at 3000.  HTTP 5xx: seed 1000-1499ms, times
(2 + attempt) for attempt > 0, capped at 10000.  HTTP 429: seed 5000-6999ms,
times 2 for attempt > 0, capped at 30000.  Anything else: the base delay. -/
def cchd_calculate_retry_delay (httpStatus baseDelayMs : Int) (attempt : Nat)
    (jitter : Nat) : Int :=
  if httpStatus < 0 then
    let errorCode := -httpStatus
    if errorCode = CCHD_ERROR_CONNECTION ∨ errorCode = CCHD_ERROR_DNS then
      let seed : Int := 250 + (jitter % 250 : Nat)
      let grown := if 0 < attempt then seed * 2 ^ attempt else seed
      if 3000 < grown then 3000 else grown
    else if errorCode = CCHD_ERROR_TIMEOUT then
      let seed : Int := 1000 + (jitter % 500 : Nat)
      let grown := if 0 < attempt then seed * 2 else seed
      if 5000 < grown then 5000 else grown
    else
      let seed : Int := 500 + (jitter % 500 : Nat)
      let grown := if 0 < attempt then seed * 2 else seed
      if 3000 < grown then 3000 else grown
  else if 500 ≤ httpStatus ∧ httpStatus < 600 then
    let seed : Int := 1000 + (jitter % 500 : Nat)
    let grown := if 0 < attempt then seed * (2 + (attempt : Int)) else seed
    if 10000 < grown then 10000 else grown
  else if httpStatus = 429 then
    let seed : Int := 5000 + (jitter % 2000 : Nat)
    let grown := if 0 < attempt then seed * 2 else seed
    if 30000 < grown then 30000 else grown
  else baseDelayMs

/-- The growth rule claim C9 states for the timeout class, modelled from the
spec's words ("timeout seeded 1-1.5s doubling per attempt capped at 5s"):
the seed doubled once per attempt and then capped. -/
def claimedTimeoutDelay (attempt jitter : Nat) : Int :=
  min 5000 ((1000 + (jitter % 500 : Nat)) * 2 ^ attempt)

theorem classifyOutcome_snd_le (httpStatus : Int) (maxAttempts : Nat) :
    (classifyOutcome httpStatus maxAttempts).2 ≤ max maxAttempts 3 := by
  simp only [classifyOutcome]
  split_ifs <;> simp

theorem objGet_eraseKey (key k : String) (fields : List (String × Json))
    (h : k ≠ key) : objGet (eraseKey key fields) k = objGet fields k := by
  induction fields with
  | nil => rfl
  | cons kv rest ih =>
    obtain ⟨a, v⟩ := kv
    by_cases ha : a = key
    · subst ha
      have hak : a ≠ k := fun hh => h hh.symm
      simp [eraseKey, objGet, hak, ih]
    · by_cases hak : a = k <;> simp [eraseKey, objGet, ha, hak, ih, h]

/-- Claim C1: for an HTTP-200 response body parsing as a JSON object whose
`continue` field is the boolean false, the interpreter commits to exit code 1
and stops: whatever `decision`, `suppressOutput`, `modified_data` or
`hookSpecificOutput` values sit in the same object, the result is exit 1 with
the suppress flag false and no modified payload. -/
theorem continue_false_overrides_all (fields : List (String × Json))
    (failOpen : Bool) (h : objGet fields "continue" = some (.bool false)) :
    cchd_process_server_response (some (.obj fields)) failOpen 200 =
      { exitCode := 1, suppressOutput := false, modifiedOutput := none,
        err := CCHD_SUCCESS } := by
  simp [cchd_process_server_response, parse_base_response, h]

/-- Witness for C1: a concrete response carrying `continue:false` together
with a `decision`, a `suppressOutput`, a `modified_data` and a
`hookSpecificOutput` field still resolves to exit 1, suppress false, no
modified payload. -/
theorem continue_false_overrides_all_witness :
    cchd_process_server_response (some (.obj
      [("continue", Json.bool false), ("decision", Json.str "approve"),
       ("suppressOutput", Json.bool true), ("modified_data", Json.str "x"),
       ("hookSpecificOutput", Json.obj
         [("hookEventName", Json.str "PreToolUse"),
          ("permissionDecision", Json.str "ask")])])) true 200 =
      { exitCode := 1, suppressOutput := false, modifiedOutput := none,
        err := CCHD_SUCCESS } :=
  continue_false_overrides_all _ true rfl

/-- Claim C3: for an HTTP-200 response object without `continue:false` whose
`hookSpecificOutput` is an object with `hookEventName` "PreToolUse" and a
`permissionDecision` among deny/allow/ask, the exit code is the one dictated
by the permission decision (deny ⇒ 1, allow ⇒ 0, ask ⇒ 2) regardless of the
top-level `decision` field: the hook-specific output is evaluated after it
and overrides it. -/
theorem hook_specific_overrides_decision (fields hook : List (String × Json))
    (failOpen : Bool) (perm : String)
    (hc : objGet fields "continue" ≠ some (.bool false))
    (hh : objGet fields "hookSpecificOutput" = some (.obj hook))
    (hn : objGet hook "hookEventName" = some (.str "PreToolUse"))
    (hp : objGet hook "permissionDecision" = some (.str perm))
    (hperm : perm = "deny" ∨ perm = "allow" ∨ perm = "ask") :
    (cchd_process_server_response (some (.obj fields)) failOpen 200).exitCode =
      if perm = "deny" then 1 else if perm = "allow" then 0 else 2 := by
  have hcont : (parse_base_response fields).1 = true := by
    simp only [parse_base_response]
    rcases hv : objGet fields "continue" with _ | v
    · simp
    · cases v <;> simp_all
  simp only [cchd_process_server_response, hcont]
  norm_num
  simp only [handle_hook_specific, hh, hn, hp, if_pos rfl]
  rcases hperm with h | h | h <;> subst h <;> simp

/-- Witness for C3: a concrete PreToolUse "ask" hook-specific output in the
same object as `decision:"block"` yields exit code 2. -/
theorem hook_specific_overrides_decision_witness :
    (cchd_process_server_response (some (.obj
      [("decision", Json.str "block"),
       ("hookSpecificOutput", Json.obj
         [("hookEventName", Json.str "PreToolUse"),
          ("permissionDecision", Json.str "ask")])])) false 200).exitCode = 2 := by
  have h := hook_specific_overrides_decision
    [("decision", Json.str "block"),
     ("hookSpecificOutput", Json.obj
       [("hookEventName", Json.str "PreToolUse"),
        ("permissionDecision", Json.str "ask")])]
    [("hookEventName", Json.str "PreToolUse"),
     ("permissionDecision", Json.str "ask")]
    false "ask" (by simp [objGet]) rfl rfl rfl (by simp)
  simpa using h

/-- Counterexample for C6: the interpreter has no legacy `action` alias.  A
200 response object carrying only `action:"block"` yields exit code 0, not 1
as the claim states. -/
theorem action_block_gives_exit_zero :
    (cchd_process_server_response (some (.obj [("action", Json.str "block")]))
      false 200).exitCode = 0 ∧ (0 : Int) ≠ 1 := by
  refine ⟨rfl, by decide⟩

/-- Amended C6: only the `decision` field carries the top-level decision;
`action` is never read.  Erasing every `action` field from a response object
never changes the interpreter's result, and a response whose only field is
`action` (with any string value, including "block", "approve" and "allow")
resolves to the default exit code 0. -/
theorem action_not_an_alias :
    (∀ (fields : List (String × Json)) (failOpen : Bool) (status : Int),
      cchd_process_server_response (some (.obj (eraseKey "action" fields)))
          failOpen status =
        cchd_process_server_response (some (.obj fields)) failOpen status) ∧
    (∀ (s : String) (failOpen : Bool),
      (cchd_process_server_response (some (.obj [("action", Json.str s)]))
        failOpen 200).exitCode = 0) := by
  constructor
  · intro fields failOpen status
    have e1 := objGet_eraseKey "action" "continue" fields (by decide)
    have e2 := objGet_eraseKey "action" "suppressOutput" fields (by decide)
    have e3 := objGet_eraseKey "action" "decision" fields (by decide)
    have e4 := objGet_eraseKey "action" "modified_data" fields (by decide)
    have e5 := objGet_eraseKey "action" "hookSpecificOutput" fields (by decide)
    simp only [cchd_process_server_response, parse_base_response,
      parse_decision, handle_modify, handle_hook_specific, e1, e2, e3, e4, e5]
  · intro s failOpen
    simp [cchd_process_server_response, parse_base_response, parse_decision,
      handle_hook_specific, objGet]

theorem objGet_append (xs ys : List (String × Json)) (key : String) :
    objGet (xs ++ ys) key =
      match objGet xs key with
      | some v => some v
      | none => objGet ys key := by
  induction xs with
  | nil => rfl
  | cons kv rest ih =>
    obtain ⟨a, v⟩ := kv
    by_cases h : a = key <;> simp [objGet, h, ih]

theorem objGet_optStrField (key k : String) (v : Option Json) (h : key ≠ k) :
    objGet (optStrField key v) k = none := by
  rcases v with _ | j
  · rfl
  · cases j <;> simp [optStrField, objGet, h]

theorem objGet_optTimeField (k : String) (t : Option String)
    (h : "time" ≠ k) : objGet (optTimeField t) k = none := by
  cases t <;> simp [optTimeField, objGet, h]

/-- Claim C4: whenever the input document passes validation and the
transformer produces an envelope, the envelope's `data` field is the entire
original input document, copied verbatim. -/
theorem envelope_data_roundtrip (input envelope : Json) (time : Option String)
    (ident : String)
    (hvalid : cchd_validate_hook_event_fields input = true)
    (htrans : cchd_transform_to_cloudevents input time ident = some envelope) :
    envelope.getField "data" = some input := by
  cases input with
  | obj fields =>
    simp only [cchd_transform_to_cloudevents] at htrans
    split at htrans
    · exact absurd htrans (by simp)
    · obtain rfl : Json.obj _ = envelope := Option.some_injective _ htrans
      have hs1 : objGet (optStrField "sessionid"
          (objGet fields "session_id")) "data" = none :=
        objGet_optStrField _ _ _ (by decide)
      have hs2 : objGet (optStrField "correlationid"
          (objGet fields "correlation_id")) "data" = none :=
        objGet_optStrField _ _ _ (by decide)
      have ht : objGet (optTimeField time) "data" = none :=
        objGet_optTimeField _ _ (by decide)
      simp [Json.getField, objGet_append, objGet, hs1, hs2, ht]
  | null => simp [cchd_validate_hook_event_fields] at hvalid
  | bool b => simp [cchd_validate_hook_event_fields] at hvalid
  | num n => simp [cchd_validate_hook_event_fields] at hvalid
  | str s => simp [cchd_validate_hook_event_fields] at hvalid
  | arr xs => simp [cchd_validate_hook_event_fields] at hvalid

/-- Witness for C4: a concrete PreToolUse event round-trips into the
envelope's `data` field. -/
theorem envelope_data_roundtrip_witness :
    Json.getField (Json.obj
      [("specversion", Json.str "1.0"),
       ("type", Json.str "com.claudecode.hook.PreToolUse"),
       ("source", Json.str "/claude-code/hooks"),
       ("id", Json.str "89abcdef-1234"),
       ("datacontenttype", Json.str "application/json"),
       ("sessionid", Json.str "abc123"),
       ("data", Json.obj [("hook_event_name", Json.str "PreToolUse"),
                          ("session_id", Json.str "abc123")])]) "data" =
      some (Json.obj [("hook_event_name", Json.str "PreToolUse"),
                      ("session_id", Json.str "abc123")]) :=
  envelope_data_roundtrip
    (Json.obj [("hook_event_name", Json.str "PreToolUse"),
               ("session_id", Json.str "abc123")])
    _ none "89abcdef-1234" rfl rfl

/-- Amended C5: for every input object in which `hook_event_name` or
`session_id` is missing or is not a string, the transform stage fails with
the validation-error exit code CCHD_ERROR_INVALID_HOOK and the pipeline
performs no network call.  (The empty string, however, is accepted: the
validator has no emptiness check.) -/
theorem missing_fields_abort_before_network (fields : List (String × Json))
    (time : Option String) (ident : String) (failOpen : Bool)
    (endpoints : List Endpoint)
    (h : (∀ s, objGet fields "hook_event_name" ≠ some (Json.str s)) ∨
         (∀ s, objGet fields "session_id" ≠ some (Json.str s))) :
    runPipeline (some (.obj fields)) time ident failOpen endpoints =
      { exitCode := CCHD_ERROR_INVALID_HOOK, suppressOutput := false,
        modifiedOutput := none, networkAttempts := [] } := by
  have hval : cchd_validate_hook_event_fields (.obj fields) = false := by
    simp only [cchd_validate_hook_event_fields]
    rcases h1 : objGet fields "hook_event_name" with _ | v1
    · rfl
    · rcases h2 : objGet fields "session_id" with _ | v2
      · rfl
      · cases v1 <;> cases v2 <;> simp_all
  simp [runPipeline, transform_input_json, hval]

/-- Witness for amended C5: an input with only `hook_event_name` (no
`session_id`) aborts with CCHD_ERROR_INVALID_HOOK and zero network attempts,
even with a live endpoint configured. -/
theorem missing_fields_abort_before_network_witness :
    runPipeline (some (.obj [("hook_event_name", Json.str "PreToolUse")]))
        none "89abcdef-1234" true
        [{ urlNonempty := true, behavior := fun _ => (200, none) }] =
      { exitCode := CCHD_ERROR_INVALID_HOOK, suppressOutput := false,
        modifiedOutput := none, networkAttempts := [] } :=
  missing_fields_abort_before_network _ none "89abcdef-1234" true _
    (Or.inr (fun s => by simp [objGet]))

/-- Counterexample for C5: empty-string `hook_event_name` and `session_id`
pass validation (there is no emptiness check), and the pipeline then makes a
network call — one attempt against the configured endpoint. -/
theorem empty_string_fields_pass_validation :
    cchd_validate_hook_event_fields (.obj
      [("hook_event_name", Json.str ""), ("session_id", Json.str "")]) = true ∧
    (runPipeline (some (.obj
        [("hook_event_name", Json.str ""), ("session_id", Json.str "")]))
        none "89abcdef-1234" true
        [{ urlNonempty := true,
           behavior := fun _ => (200, some (.obj [])) }]).networkAttempts =
      [1] := by
  refine ⟨rfl, ?_⟩
  have h1 : transform_input_json (some (.obj
      [("hook_event_name", Json.str ""), ("session_id", Json.str "")]))
      none "89abcdef-1234" =
    .ok (Json.obj
      [("specversion", Json.str "1.0"),
       ("type", Json.str "com.claudecode.hook."),
       ("source", Json.str "/claude-code/hooks"),
       ("id", Json.str "89abcdef-1234"),
       ("datacontenttype", Json.str "application/json"),
       ("sessionid", Json.str ""),
       ("data", Json.obj [("hook_event_name", Json.str ""),
                          ("session_id", Json.str "")])]) := rfl
  simp [runPipeline, h1, process_request_and_response,
    cchd_send_request_to_server, sendLoop, tryServerFrom]

theorem tryServerFrom_success (b : Nat → Int × Option Json)
    (attempt maxA : Nat) (hlt : attempt < maxA)
    (h : (b attempt).1 = 200) :
    tryServerFrom b attempt maxA = (some (b attempt).2, attempt + 1) := by
  rw [tryServerFrom]
  simp [hlt, h]

theorem tryServerFrom_step (b : Nat → Int × Option Json)
    (attempt maxA : Nat) (hlt : attempt < maxA)
    (h : (b attempt).1 ≠ 200) :
    tryServerFrom b attempt maxA =
      if (classifyOutcome (b attempt).1 maxA).1 then
        tryServerFrom b (attempt + 1) (classifyOutcome (b attempt).1 maxA).2
      else (none, attempt + 1) := by
  rw [tryServerFrom]
  simp [hlt, h]

theorem tryServerFrom_exhausted (b : Nat → Int × Option Json)
    (attempt maxA : Nat) (h : ¬ attempt < maxA) :
    tryServerFrom b attempt maxA = (none, attempt) := by
  rw [tryServerFrom]
  simp [h]

theorem classifyOutcome_retryable_network (s : Int) (maxA : Nat)
    (h : s = -CCHD_ERROR_NETWORK ∨ s = -CCHD_ERROR_CONNECTION ∨
      s = -CCHD_ERROR_TIMEOUT ∨ s = -CCHD_ERROR_DNS) :
    classifyOutcome s maxA = (true, 3) := by
  simp only [classifyOutcome, CCHD_ERROR_CONNECTION, CCHD_ERROR_TIMEOUT,
    CCHD_ERROR_NETWORK, CCHD_ERROR_DNS, CCHD_ERROR_INVALID_URL,
    CCHD_ERROR_TLS] at *
  split_ifs <;> first | rfl | omega

theorem classifyOutcome_url_tls (s : Int) (maxA : Nat)
    (h : s = -CCHD_ERROR_INVALID_URL ∨ s = -CCHD_ERROR_TLS) :
    classifyOutcome s maxA = (false, maxA) := by
  simp only [classifyOutcome, CCHD_ERROR_CONNECTION, CCHD_ERROR_TIMEOUT,
    CCHD_ERROR_NETWORK, CCHD_ERROR_DNS, CCHD_ERROR_INVALID_URL,
    CCHD_ERROR_TLS] at *
  split_ifs <;> first | rfl | omega

theorem classifyOutcome_server_error (s : Int) (maxA : Nat)
    (h : (500 ≤ s ∧ s < 600) ∨ s = 429) :
    classifyOutcome s maxA = (true, 2) := by
  simp only [classifyOutcome, CCHD_ERROR_CONNECTION, CCHD_ERROR_TIMEOUT,
    CCHD_ERROR_NETWORK, CCHD_ERROR_DNS, CCHD_ERROR_INVALID_URL,
    CCHD_ERROR_TLS] at *
  split_ifs <;> first | rfl | omega

theorem classifyOutcome_client_error (s : Int) (maxA : Nat)
    (h : 400 ≤ s ∧ s < 500 ∧ s ≠ 429) :
    classifyOutcome s maxA = (false, 1) := by
  simp only [classifyOutcome, CCHD_ERROR_CONNECTION, CCHD_ERROR_TIMEOUT,
    CCHD_ERROR_NETWORK, CCHD_ERROR_DNS, CCHD_ERROR_INVALID_URL,
    CCHD_ERROR_TLS] at *
  split_ifs <;> first | rfl | omega

theorem classifyOutcome_other_status (s : Int) (maxA : Nat)
    (h : 201 ≤ s ∧ s ≤ 399) :
    classifyOutcome s maxA = (false, maxA) := by
  simp only [classifyOutcome, CCHD_ERROR_CONNECTION, CCHD_ERROR_TIMEOUT,
    CCHD_ERROR_NETWORK, CCHD_ERROR_DNS, CCHD_ERROR_INVALID_URL,
    CCHD_ERROR_TLS] at *
  split_ifs <;> first | rfl | omega

theorem tryServerFrom_fst_none (b : Nat → Int × Option Json)
    (h : ∀ a, (b a).1 ≠ 200) (attempt maxA : Nat) :
    (tryServerFrom b attempt maxA).1 = none := by
  have aux : ∀ (k attempt maxA : Nat), max maxA 3 - attempt ≤ k →
      (tryServerFrom b attempt maxA).1 = none := by
    intro k
    induction k with
    | zero =>
      intro attempt maxA hk
      rw [tryServerFrom_exhausted b attempt maxA (by omega)]
    | succ k ih =>
      intro attempt maxA hk
      by_cases hlt : attempt < maxA
      · rw [tryServerFrom_step b attempt maxA hlt (h attempt)]
        by_cases hr : (classifyOutcome (b attempt).1 maxA).1
        · rw [if_pos hr]
          apply ih
          have := classifyOutcome_snd_le (b attempt).1 maxA
          omega
        · rw [if_neg hr]
      · rw [tryServerFrom_exhausted b attempt maxA hlt]
  exact aux (max maxA 3) attempt maxA (by omega)

theorem sendLoop_all_fail (endpoints : List Endpoint)
    (h : ∀ e ∈ endpoints, ∀ a, (e.behavior a).1 ≠ 200) :
    (sendLoop endpoints).1 = -CCHD_ERROR_ALL_SERVERS_FAILED ∧
      (sendLoop endpoints).2.1 = none := by
  induction endpoints with
  | nil => exact ⟨rfl, rfl⟩
  | cons e rest ih =>
    have hrest := ih (fun e' he' => h e' (List.mem_cons_of_mem _ he'))
    by_cases hu : e.urlNonempty
    · have hnone : (tryServerFrom e.behavior 0 3).1 = none :=
        tryServerFrom_fst_none _ (h e (List.mem_cons_self e rest)) 0 3
      rcases htry : tryServerFrom e.behavior 0 3 with ⟨res, n⟩
      rw [htry] at hnone
      simp only at hnone
      subst hnone
      simp [sendLoop, hu, htry, hrest.1, hrest.2]
    · simp [sendLoop, hu, hrest.1, hrest.2]

/-- Amended C2: when every endpoint returns only HTTP 500 responses, the
process's final exit code is 0 under fail-open; under fail-closed it is
CCHD_ERROR_ALL_SERVERS_FAILED (32), the dispatch error propagated by
process_request_and_response, not 1. -/
theorem all_500_final_exit_code (endpoints : List Endpoint) (failOpen : Bool)
    (hne : endpoints ≠ [])
    (h : ∀ e ∈ endpoints, ∀ a, (e.behavior a).1 = 500) :
    (process_request_and_response failOpen endpoints).exitCode =
      if failOpen then 0 else CCHD_ERROR_ALL_SERVERS_FAILED := by
  have h' : ∀ e ∈ endpoints, ∀ a, (e.behavior a).1 ≠ 200 := by
    intro e he a
    rw [h e he a]
    decide
  have hsl := sendLoop_all_fail endpoints h'
  have hemp : endpoints.isEmpty = false := by
    cases endpoints
    · exact absurd rfl hne
    · rfl
  simp only [process_request_and_response, cchd_send_request_to_server, hemp,
    Bool.false_eq_true, if_false, hsl.1]
  have h32 : -CCHD_ERROR_ALL_SERVERS_FAILED ≠ (200 : Int) := by decide
  cases failOpen <;>
    simp [h32, CCHD_ERROR_ALL_SERVERS_FAILED]

/-- Witness for amended C2: one always-500 endpoint; fail-open exits 0 and
fail-closed exits 32. -/
theorem all_500_final_exit_code_witness :
    (process_request_and_response true
        [{ urlNonempty := true, behavior := fun _ => (500, none) }]).exitCode
        = 0 ∧
    (process_request_and_response false
        [{ urlNonempty := true, behavior := fun _ => (500, none) }]).exitCode
        = 32 := by
  constructor
  · have := all_500_final_exit_code
      [{ urlNonempty := true, behavior := fun _ => (500, none) }] true
      (by simp) (by intro e he a; simp at he; simp [he])
    simpa using this
  · have := all_500_final_exit_code
      [{ urlNonempty := true, behavior := fun _ => (500, none) }] false
      (by simp) (by intro e he a; simp at he; simp [he])
    simpa [CCHD_ERROR_ALL_SERVERS_FAILED] using this

/-- Counterexample for C2: with a single endpoint answering every attempt
with HTTP 500 and fail_open=false, the final exit code is 32
(CCHD_ERROR_ALL_SERVERS_FAILED), not 1 as the claim states. -/
theorem all_500_fail_closed_is_32 :
    (process_request_and_response false
        [{ urlNonempty := true, behavior := fun _ => (500, none) }]).exitCode
        = 32 ∧ (32 : Int) ≠ 1 := by
  refine ⟨?_, by decide⟩
  simp [process_request_and_response, cchd_send_request_to_server, sendLoop,
    tryServerFrom, classifyOutcome, CCHD_ERROR_CONNECTION, CCHD_ERROR_TIMEOUT,
    CCHD_ERROR_NETWORK, CCHD_ERROR_DNS, CCHD_ERROR_INVALID_URL,
    CCHD_ERROR_TLS, CCHD_ERROR_ALL_SERVERS_FAILED]

theorem tryServer_uniform_network_budget (c : Int)
    (b : Nat → Int × Option Json)
    (hc : c = -CCHD_ERROR_CONNECTION ∨ c = -CCHD_ERROR_DNS ∨
      c = -CCHD_ERROR_TIMEOUT ∨ c = -CCHD_ERROR_NETWORK)
    (hb : ∀ a, (b a).1 = c) :
    tryServerFrom b 0 3 = (none, 3) := by
  have hc' : c = -CCHD_ERROR_NETWORK ∨ c = -CCHD_ERROR_CONNECTION ∨
      c = -CCHD_ERROR_TIMEOUT ∨ c = -CCHD_ERROR_DNS := by tauto
  have h200 : ∀ a, (b a).1 ≠ 200 := by
    intro a
    rw [hb a]
    rcases hc with h | h | h | h <;> subst h <;> decide
  have s0 := tryServerFrom_step b 0 3 (by omega) (h200 0)
  rw [hb 0, classifyOutcome_retryable_network c 3 hc'] at s0
  simp only [if_true] at s0
  have s1 := tryServerFrom_step b 1 3 (by omega) (h200 1)
  rw [hb 1, classifyOutcome_retryable_network c 3 hc'] at s1
  simp only [if_true] at s1
  have s2 := tryServerFrom_step b 2 3 (by omega) (h200 2)
  rw [hb 2, classifyOutcome_retryable_network c 3 hc'] at s2
  simp only [if_true] at s2
  rw [s0, s1, s2, tryServerFrom_exhausted b 3 3 (by omega)]

theorem tryServer_uniform_server_error_budget (s : Int)
    (b : Nat → Int × Option Json)
    (hs : (500 ≤ s ∧ s < 600) ∨ s = 429)
    (hb : ∀ a, (b a).1 = s) :
    tryServerFrom b 0 3 = (none, 2) := by
  have h200 : ∀ a, (b a).1 ≠ 200 := by
    intro a
    rw [hb a]
    rcases hs with ⟨h1, h2⟩ | h <;> omega
  have s0 := tryServerFrom_step b 0 3 (by omega) (h200 0)
  rw [hb 0, classifyOutcome_server_error s 3 hs] at s0
  simp only [if_true] at s0
  have s1 := tryServerFrom_step b 1 2 (by omega) (h200 1)
  rw [hb 1, classifyOutcome_server_error s 2 hs] at s1
  simp only [if_true] at s1
  rw [s0, s1, tryServerFrom_exhausted b 2 2 (by omega)]

theorem tryServer_uniform_nonretryable (s : Int)
    (b : Nat → Int × Option Json)
    (hs : s = -CCHD_ERROR_INVALID_URL ∨ s = -CCHD_ERROR_TLS ∨
      (400 ≤ s ∧ s < 500 ∧ s ≠ 429))
    (hb : ∀ a, (b a).1 = s) :
    tryServerFrom b 0 3 = (none, 1) := by
  have h200 : (b 0).1 ≠ 200 := by
    rw [hb 0]
    rcases hs with h | h | ⟨h1, h2, h3⟩
    · subst h; decide
    · subst h; decide
    · omega
  have s0 := tryServerFrom_step b 0 3 (by omega) h200
  rcases hs with h | h | h
  · rw [hb 0, classifyOutcome_url_tls s 3 (Or.inl h)] at s0
    simpa using s0
  · rw [hb 0, classifyOutcome_url_tls s 3 (Or.inr h)] at s0
    simpa using s0
  · rw [hb 0, classifyOutcome_client_error s 3 h] at s0
    simpa using s0

/-- Claim C7: endpoints are tried strictly in list order and the first HTTP
200 terminates the whole dispatch loop with that status and body.  With the
first N-1 endpoints failing every attempt at the connection level and the
N-th answering 200, the dispatch returns the 200 response, each of the first
N-1 endpoints is attempted exactly 3 times (its bounded retry budget), in
order, before the next is contacted, and the N-th endpoint is invoked
exactly once. -/
theorem dispatch_strict_order (es : List Endpoint) (finalE : Endpoint)
    (body : Option Json)
    (hes : ∀ e ∈ es, e.urlNonempty = true ∧
      ∀ a, (e.behavior a).1 = -CCHD_ERROR_CONNECTION)
    (hurl : finalE.urlNonempty = true)
    (hbeh : ∀ a, finalE.behavior a = (200, body)) :
    cchd_send_request_to_server (es ++ [finalE]) =
      (200, body, es.map (fun _ => 3) ++ [1]) := by
  have hfin : tryServerFrom finalE.behavior 0 3 = (some body, 1) := by
    have h0 : (finalE.behavior 0).1 = 200 := by rw [hbeh 0]
    rw [tryServerFrom_success finalE.behavior 0 3 (by omega) h0, hbeh 0]
  have hsl : ∀ es' : List Endpoint,
      (∀ e ∈ es', e.urlNonempty = true ∧
        ∀ a, (e.behavior a).1 = -CCHD_ERROR_CONNECTION) →
      sendLoop (es' ++ [finalE]) =
        (200, body, es'.map (fun _ => 3) ++ [1]) := by
    intro es'
    induction es' with
    | nil =>
      intro _
      simp [sendLoop, hurl, hfin]
    | cons e rest ih =>
      intro h
      obtain ⟨hu, hb⟩ := h e (List.mem_cons_self e rest)
      have htry : tryServerFrom e.behavior 0 3 = (none, 3) :=
        tryServer_uniform_network_budget _ _ (Or.inl rfl) hb
      have hrest := ih (fun e' he' => h e' (List.mem_cons_of_mem _ he'))
      simp [sendLoop, hu, htry, hrest]
  have hne : (es ++ [finalE]).isEmpty = false := by
    cases es <;> rfl
  simp only [cchd_send_request_to_server, hne, Bool.false_eq_true, if_false]
  exact hsl es hes

/-- Witness for C7: one always-connection-refused endpoint followed by one
answering 200; the dispatch returns the 200 body with trace [3, 1]. -/
theorem dispatch_strict_order_witness :
    cchd_send_request_to_server
        [{ urlNonempty := true,
           behavior := fun _ => (-CCHD_ERROR_CONNECTION, none) },
         { urlNonempty := true,
           behavior := fun _ => ((200 : Int), some (Json.obj [])) }] =
      (200, some (Json.obj []), [3, 1]) := by
  have h := dispatch_strict_order
    [{ urlNonempty := true,
       behavior := fun _ => (-CCHD_ERROR_CONNECTION, none) }]
    { urlNonempty := true,
      behavior := fun _ => ((200 : Int), some (Json.obj [])) }
    (some (Json.obj []))
    (by
      intro e he
      simp only [List.mem_singleton] at he
      subst he
      exact ⟨rfl, fun a => rfl⟩)
    rfl (fun a => rfl)
  simpa using h

/-- Claim C8: the per-endpoint retry budgets.  Connection, DNS, timeout and
generic network failures get 3 total attempts; HTTP 5xx and 429 get 2 total
attempts; malformed-URL and TLS failures and HTTP 4xx other than 429 are
never retried (one attempt, endpoint abandoned); and when every endpoint is
exhausted without a 200 the dispatch returns -CCHD_ERROR_ALL_SERVERS_FAILED. -/
theorem retry_budgets_per_class :
    (∀ (c : Int) (b : Nat → Int × Option Json),
      (c = -CCHD_ERROR_CONNECTION ∨ c = -CCHD_ERROR_DNS ∨
        c = -CCHD_ERROR_TIMEOUT ∨ c = -CCHD_ERROR_NETWORK) →
      (∀ a, (b a).1 = c) → tryServerFrom b 0 3 = (none, 3)) ∧
    (∀ (s : Int) (b : Nat → Int × Option Json),
      ((500 ≤ s ∧ s < 600) ∨ s = 429) →
      (∀ a, (b a).1 = s) → tryServerFrom b 0 3 = (none, 2)) ∧
    (∀ (s : Int) (b : Nat → Int × Option Json),
      (s = -CCHD_ERROR_INVALID_URL ∨ s = -CCHD_ERROR_TLS ∨
        (400 ≤ s ∧ s < 500 ∧ s ≠ 429)) →
      (∀ a, (b a).1 = s) → tryServerFrom b 0 3 = (none, 1)) ∧
    (∀ endpoints : List Endpoint, endpoints ≠ [] →
      (∀ e ∈ endpoints, ∀ a, (e.behavior a).1 ≠ 200) →
      (cchd_send_request_to_server endpoints).1 =
        -CCHD_ERROR_ALL_SERVERS_FAILED) := by
  refine ⟨tryServer_uniform_network_budget,
    tryServer_uniform_server_error_budget,
    tryServer_uniform_nonretryable, ?_⟩
  intro endpoints hne h
  have hemp : endpoints.isEmpty = false := by
    cases endpoints
    · exact absurd rfl hne
    · rfl
  simp only [cchd_send_request_to_server, hemp, Bool.false_eq_true, if_false]
  exact (sendLoop_all_fail endpoints h).1

/-- Witness for C8: concrete endpoints exercising each budget — a
connection-refused endpoint makes 3 attempts, a 429 endpoint 2, a 404
endpoint 1, and a single 404 endpoint list ends in
-CCHD_ERROR_ALL_SERVERS_FAILED. -/
theorem retry_budgets_per_class_witness :
    tryServerFrom (fun _ => (-CCHD_ERROR_CONNECTION, none)) 0 3 = (none, 3) ∧
    tryServerFrom (fun _ => ((429 : Int), none)) 0 3 = (none, 2) ∧
    tryServerFrom (fun _ => ((404 : Int), none)) 0 3 = (none, 1) ∧
    (cchd_send_request_to_server
        [{ urlNonempty := true,
           behavior := fun _ => ((404 : Int), none) }]).1 =
      -CCHD_ERROR_ALL_SERVERS_FAILED :=
  ⟨retry_budgets_per_class.1 _ _ (Or.inl rfl) (fun _ => rfl),
   retry_budgets_per_class.2.1 _ _ (Or.inr rfl) (fun _ => rfl),
   retry_budgets_per_class.2.2.1 _ _ (Or.inr (Or.inr (by norm_num)))
     (fun _ => rfl),
   retry_budgets_per_class.2.2.2 _ (by simp)
     (by
       intro e he a
       simp only [List.mem_singleton] at he
       subst he
       simp)⟩

/-- Claim C10: only HTTP 200 counts as dispatch success.  Any other
non-error status — another 2xx such as 201 or 204, or any 3xx — classifies
as non-retryable: the endpoint is abandoned after exactly one attempt, and
the dispatch neither returns that response nor re-attempts the endpoint but
advances to the rest of the list. -/
theorem non_200_success_statuses_abandon (s : Int)
    (b : Nat → Int × Option Json) (rest : List Endpoint)
    (h1 : 201 ≤ s) (h2 : s ≤ 399) (hb : ∀ a, (b a).1 = s) :
    tryServerFrom b 0 3 = (none, 1) ∧
    cchd_send_request_to_server
        ({ urlNonempty := true, behavior := b } :: rest) =
      ((sendLoop rest).1, (sendLoop rest).2.1, 1 :: (sendLoop rest).2.2) := by
  have h200 : (b 0).1 ≠ 200 := by rw [hb 0]; omega
  have s0 := tryServerFrom_step b 0 3 (by omega) h200
  rw [hb 0, classifyOutcome_other_status s 3 ⟨h1, h2⟩] at s0
  simp only [if_false, Bool.false_eq_true] at s0
  refine ⟨s0, ?_⟩
  simp [cchd_send_request_to_server, sendLoop, s0]

/-- Witness for C10: a single endpoint answering HTTP 204 on every attempt
is abandoned after one attempt and the dispatch falls through to
-CCHD_ERROR_ALL_SERVERS_FAILED. -/
theorem non_200_success_statuses_abandon_witness :
    tryServerFrom (fun _ => ((204 : Int), (none : Option Json))) 0 3 =
      (none, 1) ∧
    cchd_send_request_to_server
        [{ urlNonempty := true,
           behavior := fun _ => ((204 : Int), (none : Option Json)) }] =
      (-CCHD_ERROR_ALL_SERVERS_FAILED, none, [1]) := by
  have h := non_200_success_statuses_abandon 204
    (fun _ => ((204 : Int), (none : Option Json))) []
    (by norm_num) (by norm_num) (fun _ => rfl)
  simpa [sendLoop] using h

theorem cap_ite_eq_min (cap g : Int) :
    (if cap < g then cap else g) = min cap g := by
  rcases le_or_lt g cap with h | h
  · rw [if_neg (not_lt.mpr h), min_eq_right h]
  · rw [if_pos h, min_eq_left h.le]

/-- Counterexample for C9: the timeout class does not double per attempt.
At 0-based attempt index 2 with zero jitter the code's delay is 2000ms (a
single doubling of the 1000ms seed, the code's "linear backoff"), while the
claimed rule — seed doubled per attempt, capped at 5s — gives 4000ms. -/
theorem timeout_backoff_not_doubling_per_attempt :
    cchd_calculate_retry_delay (-CCHD_ERROR_TIMEOUT) 500 2 0 = 2000 ∧
    claimedTimeoutDelay 2 0 = 4000 ∧
    cchd_calculate_retry_delay (-CCHD_ERROR_TIMEOUT) 500 2 0 ≠
      claimedTimeoutDelay 2 0 := by
  refine ⟨?_, ?_, ?_⟩ <;> decide

/-- Amended C9: every class's delay stays within its seed-to-cap band for
every attempt index and every jitter — connection/DNS in [250, 3000],
timeout in [1000, 5000], HTTP 5xx in [1000, 10000], HTTP 429 in
[5000, 30000] (in particular the DNS delay at 0-based attempt index 1) —
and the growth rules are: connection/DNS multiply the seed by 2^attempt
(doubling per attempt, capped at 3s); timeout and 429 apply a single
doubling for any attempt ≥ 1 (capped at 5s and 30s); 5xx multiplies the
seed by (2 + attempt) for attempt ≥ 1 (capped at 10s). -/
theorem retry_delay_bands_and_growth (a j : Nat) (base : Int) :
    (250 ≤ cchd_calculate_retry_delay (-CCHD_ERROR_CONNECTION) base a j ∧
      cchd_calculate_retry_delay (-CCHD_ERROR_CONNECTION) base a j ≤ 3000) ∧
    (250 ≤ cchd_calculate_retry_delay (-CCHD_ERROR_DNS) base a j ∧
      cchd_calculate_retry_delay (-CCHD_ERROR_DNS) base a j ≤ 3000) ∧
    (1000 ≤ cchd_calculate_retry_delay (-CCHD_ERROR_TIMEOUT) base a j ∧
      cchd_calculate_retry_delay (-CCHD_ERROR_TIMEOUT) base a j ≤ 5000) ∧
    (∀ s : Int, 500 ≤ s → s < 600 →
      1000 ≤ cchd_calculate_retry_delay s base a j ∧
      cchd_calculate_retry_delay s base a j ≤ 10000) ∧
    (5000 ≤ cchd_calculate_retry_delay 429 base a j ∧
      cchd_calculate_retry_delay 429 base a j ≤ 30000) ∧
    (0 < a → cchd_calculate_retry_delay (-CCHD_ERROR_CONNECTION) base a j =
      min 3000 ((250 + (j % 250 : Nat)) * 2 ^ a)) ∧
    (0 < a → cchd_calculate_retry_delay (-CCHD_ERROR_DNS) base a j =
      min 3000 ((250 + (j % 250 : Nat)) * 2 ^ a)) ∧
    (0 < a → cchd_calculate_retry_delay (-CCHD_ERROR_TIMEOUT) base a j =
      min 5000 ((1000 + (j % 500 : Nat)) * 2)) ∧
    (∀ s : Int, 500 ≤ s → s < 600 → 0 < a →
      cchd_calculate_retry_delay s base a j =
        min 10000 ((1000 + (j % 500 : Nat)) * (2 + (a : Int)))) ∧
    (0 < a → cchd_calculate_retry_delay 429 base a j =
      min 30000 ((5000 + (j % 2000 : Nat)) * 2)) := by
  have hj250 : (0 : Int) ≤ (j % 250 : Nat) ∧ ((j % 250 : Nat) : Int) < 250 := by
    constructor
    · exact Int.ofNat_nonneg _
    · exact_mod_cast Nat.mod_lt j (by norm_num)
  have hj500 : (0 : Int) ≤ (j % 500 : Nat) ∧ ((j % 500 : Nat) : Int) < 500 := by
    constructor
    · exact Int.ofNat_nonneg _
    · exact_mod_cast Nat.mod_lt j (by norm_num)
  have hj2000 : (0 : Int) ≤ (j % 2000 : Nat) ∧
      ((j % 2000 : Nat) : Int) < 2000 := by
    constructor
    · exact Int.ofNat_nonneg _
    · exact_mod_cast Nat.mod_lt j (by norm_num)
  have hpow : (0 : Int) < 2 ^ a := by positivity
  have hca : (0 : Int) ≤ (a : Int) := Int.ofNat_nonneg a
  have hmul250 : (250 + (j : Int) % 250) ≤
      (250 + (j : Int) % 250) * 2 ^ a :=
    le_mul_of_one_le_right (by omega) (by omega)
  have hmul5xx : (1000 + ((j % 500 : Nat) : Int)) ≤
      (1000 + ((j % 500 : Nat) : Int)) * (2 + (a : Int)) :=
    le_mul_of_one_le_right (by omega) (by omega)
  refine ⟨?_, ?_, ?_, ?_, ?_, ?_, ?_, ?_, ?_, ?_⟩
  · simp only [cchd_calculate_retry_delay, CCHD_ERROR_CONNECTION,
      CCHD_ERROR_DNS, CCHD_ERROR_TIMEOUT]
    norm_num
    split_ifs <;> omega
  · simp only [cchd_calculate_retry_delay, CCHD_ERROR_CONNECTION,
      CCHD_ERROR_DNS, CCHD_ERROR_TIMEOUT]
    norm_num
    split_ifs <;> omega
  · simp only [cchd_calculate_retry_delay, CCHD_ERROR_CONNECTION,
      CCHD_ERROR_DNS, CCHD_ERROR_TIMEOUT]
    norm_num
    split_ifs <;> omega
  · intro s h5 h6
    simp only [cchd_calculate_retry_delay]
    rw [if_neg (by omega), if_pos (by omega)]
    split_ifs <;> omega
  · simp only [cchd_calculate_retry_delay]
    norm_num
    split_ifs <;> omega
  · intro ha
    simp only [cchd_calculate_retry_delay, CCHD_ERROR_CONNECTION,
      CCHD_ERROR_DNS, CCHD_ERROR_TIMEOUT]
    norm_num [ha]
    exact cap_ite_eq_min 3000 _
  · intro ha
    simp only [cchd_calculate_retry_delay, CCHD_ERROR_CONNECTION,
      CCHD_ERROR_DNS, CCHD_ERROR_TIMEOUT]
    norm_num [ha]
    exact cap_ite_eq_min 3000 _
  · intro ha
    simp only [cchd_calculate_retry_delay, CCHD_ERROR_CONNECTION,
      CCHD_ERROR_DNS, CCHD_ERROR_TIMEOUT]
    norm_num [ha]
    exact cap_ite_eq_min 5000 _
  · intro s h5 h6 ha
    simp only [cchd_calculate_retry_delay]
    rw [if_neg (by omega), if_pos (by omega), if_pos ha]
    exact cap_ite_eq_min 10000 _
  · intro ha
    simp only [cchd_calculate_retry_delay]
    norm_num [ha]
    exact cap_ite_eq_min 30000 _

/-- Witness for amended C9: at attempt index 1 with zero jitter, the DNS
delay sits in [250, 3000] and each growth rule yields its concrete value. -/
theorem retry_delay_bands_and_growth_witness :
    (250 ≤ cchd_calculate_retry_delay (-CCHD_ERROR_DNS) 500 1 0 ∧
      cchd_calculate_retry_delay (-CCHD_ERROR_DNS) 500 1 0 ≤ 3000) ∧
    (1000 ≤ cchd_calculate_retry_delay 503 500 1 0 ∧
      cchd_calculate_retry_delay 503 500 1 0 ≤ 10000) ∧
    cchd_calculate_retry_delay (-CCHD_ERROR_CONNECTION) 500 1 0 =
      min (3000 : Int) (((250 : Int) + ((0 % 250 : Nat) : Int)) * 2 ^ 1) ∧
    cchd_calculate_retry_delay (-CCHD_ERROR_TIMEOUT) 500 1 0 =
      min (5000 : Int) (((1000 : Int) + ((0 % 500 : Nat) : Int)) * 2) ∧
    cchd_calculate_retry_delay 503 500 1 0 =
      min (10000 : Int)
        (((1000 : Int) + ((0 % 500 : Nat) : Int)) * (2 + ((1 : Nat) : Int))) ∧
    cchd_calculate_retry_delay 429 500 1 0 =
      min (30000 : Int) (((5000 : Int) + ((0 % 2000 : Nat) : Int)) * 2) := by
  have h := retry_delay_bands_and_growth 1 0 500
  exact ⟨h.2.1,
    h.2.2.2.1 503 (by norm_num) (by norm_num),
    h.2.2.2.2.2.1 (by norm_num),
    h.2.2.2.2.2.2.2.1 (by norm_num),
    h.2.2.2.2.2.2.2.2.1 503 (by norm_num) (by norm_num) (by norm_num),
    h.2.2.2.2.2.2.2.2.2 (by norm_num)⟩

end Cchd
